import Mathlib

/-!
Verification of the Shiitake-hub storefront server against its
natural-language specification.  The repository is a small Express
application; its handlers are pure request → response functions apart from
reading/writing one JSON catalog file and storing uploaded images.  We embed
those handlers shallowly: the catalog is an association list from numeric
ids to product records, prices are exact rationals, the file system and the
outcome of the external calls (catalog write, payments API) are explicit
boolean/inductive parameters, and each handler returns a result record that
carries the HTTP status together with the persisted state it leaves behind.
Transport-level middleware (rate limiting, CORS, security headers, logging)
is outside the model; each route is embedded from its own validations
onward.
-/

namespace Shiitake

/-- One product record of `products.json` (see the handlers in
`api/server.js`): name, price, size, description/category and the relative
image path. -/
structure Product where
  name : String
  price : ℚ
  size : String
  description : String
  image : String
deriving DecidableEq, Repr

/-- The catalog persisted in `products.json`: a JS object mapping numeric
string ids to product records, embedded as an association list keyed by the
numeric value of the id.  JS objects keep integer-like keys in ascending
order and ids are assigned increasingly, so insertion at the tail matches
the JSON file layout. -/
abbrev Catalog := List (Nat × Product)

/-- `Math.max(...Object.keys(products).map(Number), 0)` from the create
handler (`server.js` line 441): the largest id present, or 0 for an empty
catalog. -/
def maxKey (cat : Catalog) : Nat :=
  cat.foldr (fun kv m => max kv.1 m) 0

/-- Whitespace characters removed by the JS `String.prototype.trim` calls
in the handlers. -/
def isJsSpace (c : Char) : Bool :=
  c == ' ' || c == '\t' || c == '\n' || c == '\r'

/-- JS `value.trim()`: strip leading and trailing whitespace. -/
def jsTrim (s : String) : String :=
  String.mk (((s.data.dropWhile isJsSpace).reverse.dropWhile isJsSpace).reverse)

/-- The environment configuration the handlers read from `process.env`:
admin credentials, the MercadoPago access token and the WhatsApp
destination number (`none` = variable not set). -/
structure Config where
  adminUsername : String
  adminPassword : String
  mpToken : Option String
  whatsappNumber : Option String
deriving DecidableEq, Repr

/-- The MIME allow-list used both by the multer fileFilter and by
`validateFile` (`server.js` lines 226 and 260). -/
def allowedImageTypes : List String :=
  [("image/jpeg"), ("image/png"), ("image/webp")]

/-- The 5 MB upload ceiling (`5 * 1024 * 1024`, `server.js` line 227). -/
def maxImageBytes : Nat := 5 * 1024 * 1024

/-- An uploaded multipart file as multer presents it: stored filename,
declared MIME type and size in bytes. -/
structure UploadedFile where
  filename : String
  mimetype : String
  size : Nat
deriving DecidableEq, Repr

/-- A POST /admin/products request body plus the optional uploaded file. -/
structure CreateReq where
  name : String
  price : ℚ
  size : String
  description : String
  username : String
  password : String
  file : Option UploadedFile
deriving DecidableEq, Repr

/-- Outcome of the create-product route: HTTP status, the catalog as
persisted on disk afterwards, the id assigned on success, whether
`writeProducts` ran successfully, and whether an uploaded image file is
left on disk when the response goes out. -/
structure CreateResult where
  status : Nat
  catalog : Catalog
  assignedId : Option Nat
  catalogWritten : Bool
  uploadedFileOnDisk : Bool
deriving DecidableEq, Repr

/-- The POST /admin/products pipeline of `server.js` (lines 397-476 with
the multer configuration at 257-276 and `validateFile` at 220-255):
multer's fileFilter rejects a disallowed MIME type before the file is
stored and the error lands in the error middleware (status 500); multer's
`fileSize` limit likewise aborts with 500 and removes the partial file;
`validateFile` then re-checks type and size (unreachable branches, kept
from the source) deleting the file and answering 400 on failure; the
handler itself requires a file, re-checks size and type, checks the admin
credentials, assigns `maxKey + 1` as the new id, inserts the record and
persists.  A failed `writeProducts` yields 500 with the catalog file
untouched but the uploaded image still on disk.  `server-vercel.js` lines
279-323 and `part_002` lines 184-232 differ only in checking credentials
before the file checks, which no claim distinguishes.  The body-field
format validations are transport middleware outside this model. -/
def createProduct (cfg : Config) (cat : Catalog) (req : CreateReq)
    (writeOk : Bool) : CreateResult :=
  match req.file with
  | none => ⟨400, cat, none, false, false⟩
  | some f =>
    if (allowedImageTypes.contains f.mimetype) = false then
      ⟨500, cat, none, false, false⟩
    else if maxImageBytes < f.size then
      ⟨500, cat, none, false, false⟩
    else if (allowedImageTypes.contains f.mimetype) = false then
      ⟨400, cat, none, false, false⟩
    else if maxImageBytes < f.size then
      ⟨400, cat, none, false, false⟩
    else if maxImageBytes < f.size then
      ⟨400, cat, none, false, true⟩
    else if (allowedImageTypes.contains f.mimetype) = false then
      ⟨400, cat, none, false, true⟩
    else if ¬ (req.username = cfg.adminUsername) ∨ ¬ (req.password = cfg.adminPassword) then
      ⟨401, cat, none, false, true⟩
    else
      let newId := maxKey cat + 1
      let prod : Product :=
        ⟨jsTrim req.name, req.price, jsTrim req.size, req.description,
          ("img/") ++ f.filename⟩
      let cat' := cat ++ [(newId, prod)]
      if writeOk then ⟨200, cat', some newId, true, true⟩
      else ⟨500, cat, none, false, true⟩

/-- Outcome of the delete-product route: HTTP status, the catalog as
persisted afterwards, whether `writeProducts` ran, and whether the
product's image file was unlinked. -/
structure DeleteResult where
  status : Nat
  catalog : Catalog
  catalogWritten : Bool
  imageDeleted : Bool
deriving DecidableEq, Repr

/-- The DELETE /admin/products/:id pipeline of `server.js` (lines 479-566):
`deleteProductValidations` require an integer id ≥ 1, a trimmed username of
3-50 characters and a password of 6-100 characters (400 otherwise); the
handler then compares the credentials (401 on mismatch), looks the id up
(404 when absent, without touching the file), otherwise unlinks the image
when it exists, removes the entry and persists; a failed write yields 500
with the catalog file untouched but the image already gone. -/
def deleteProduct (cfg : Config) (cat : Catalog) (id : Nat)
    (username password : String) (imageExists writeOk : Bool) : DeleteResult :=
  if id < 1 then ⟨400, cat, false, false⟩
  else if ¬ (3 ≤ (jsTrim username).length ∧ (jsTrim username).length ≤ 50) then
    ⟨400, cat, false, false⟩
  else if ¬ (6 ≤ password.length ∧ password.length ≤ 100) then
    ⟨400, cat, false, false⟩
  else if ¬ (jsTrim username = cfg.adminUsername) ∨ ¬ (password = cfg.adminPassword) then
    ⟨401, cat, false, false⟩
  else
    match List.lookup id cat with
    | some _ =>
      let cat' := cat.eraseP (fun kv => kv.1 == id)
      if writeOk then ⟨200, cat', true, imageExists⟩
      else ⟨500, cat, false, imageExists⟩
    | none => ⟨404, cat, false, false⟩

/-- The DELETE /admin/products/:id handler of `part_002` (lines 235-270):
identical to the `server.js` one but without the express-validator layer
and without trimming the username. -/
def deleteProductBasic (cfg : Config) (cat : Catalog) (id : Nat)
    (username password : String) (imageExists writeOk : Bool) : DeleteResult :=
  if ¬ (username = cfg.adminUsername) ∨ ¬ (password = cfg.adminPassword) then
    ⟨401, cat, false, false⟩
  else
    match List.lookup id cat with
    | some _ =>
      let cat' := cat.eraseP (fun kv => kv.1 == id)
      if writeOk then ⟨200, cat', true, imageExists⟩
      else ⟨500, cat, false, imageExists⟩
    | none => ⟨404, cat, false, false⟩

/-- Outcome of the admin-login route: HTTP status, the `success` flag of
the JSON body, and whether the handler wrote the catalog file (it never
does). -/
structure LoginResult where
  status : Nat
  success : Bool
  catalogWritten : Bool
deriving DecidableEq, Repr

/-- The `loginValidations` username rule of `server.js` (lines 358-362):
trim, length 3-50, regex of word characters. -/
def usernameFormatOk (u : String) : Bool :=
  decide (3 ≤ u.length) && decide (u.length ≤ 50) &&
    u.data.all (fun c => c.isAlphanum || c == '_')

/-- The `loginValidations` password rule of `server.js` (lines 363-365):
length 6-100. -/
def passwordFormatOk (p : String) : Bool :=
  decide (6 ≤ p.length) && decide (p.length ≤ 100)

/-- POST /admin/login of `server.js` (route at lines 368-374,
`authenticateAdmin` at 308-315): the express-validator layer trims the
username and rejects malformed fields with 400; `authenticateAdmin` then
compares both fields against the configured credentials, letting the final
handler answer `{success: true}` on a match and 401 otherwise.  Nothing in
the route touches the catalog file. -/
def adminLogin (cfg : Config) (username password : String) : LoginResult :=
  if (usernameFormatOk (jsTrim username) && passwordFormatOk password) = false then
    ⟨400, false, false⟩
  else if jsTrim username = cfg.adminUsername ∧ password = cfg.adminPassword then
    ⟨200, true, false⟩
  else
    ⟨401, false, false⟩

/-- POST /admin/login of the `part_001` dev server (lines 79-81): the route
has no middleware and no credential comparison at all — it answers
`{success: true}` for every request and never writes the catalog. -/
def adminLoginDev (username password : String) : LoginResult :=
  ⟨200, true, false⟩

/-- State of the `products.json` file as the read functions see it: absent,
present but not valid JSON, or present with a parsed catalog. -/
inductive FileState where
  | missing : FileState
  | corrupt : FileState
  | stored : Catalog → FileState
deriving DecidableEq, Repr

/-- The try-block of `readProducts` in `server.js` (lines 318-340): a
missing file is detected with `existsSync` and answered with `{}` without
raising; `JSON.parse` raises on corrupt contents; otherwise the parsed
catalog is returned. -/
def readProductsTry : FileState → Except String Catalog
  | .missing => .ok []
  | .corrupt => .error ("SyntaxError: JSON.parse")
  | .stored cat => .ok cat

/-- `readProducts` of `server.js` (lines 318-340) as its caller sees it:
the catch clause turns any raised error into the empty catalog, so the
result is always `Except.ok`. -/
def readProductsServer (fs : FileState) : Except String Catalog :=
  match readProductsTry fs with
  | .ok products => .ok products
  | .error _ => .ok []

/-- The placeholder product returned by the Vercel variant when the catalog
file cannot be located (`server-vercel.js` lines 109-117). -/
def exampleProduct : Product :=
  ⟨("Producto de Ejemplo"), 1099 / 100, ("100g"), ("Producto de ejemplo"),
    ("img/default.jpg")⟩

/-- The try-block of `readProducts` in `server-vercel.js` (lines 81-128):
when no candidate path exists the function returns a single-entry
placeholder catalog (no raise); `JSON.parse` raises on corrupt contents. -/
def readProductsVercelTry : FileState → Except String Catalog
  | .missing => .ok [(1, exampleProduct)]
  | .corrupt => .error ("SyntaxError: JSON.parse")
  | .stored cat => .ok cat

/-- `readProducts` of `server-vercel.js` (lines 81-128) as its caller sees
it: the catch clause turns any raised error into the empty catalog. -/
def readProductsVercel (fs : FileState) : Except String Catalog :=
  match readProductsVercelTry fs with
  | .ok products => .ok products
  | .error _ => .ok []

/-- The catalog value `readProducts()` hands to the route handlers of
`server.js` (always defined, by the theorems below). -/
def readProducts (fs : FileState) : Catalog :=
  match readProductsServer fs with
  | .ok products => products
  | .error _ => []

/-- GET /api/products of `server.js` (lines 588-605): reads the catalog and
returns it verbatim with status 200. -/
def getApiProducts (fs : FileState) : Nat × Catalog :=
  (200, readProducts fs)

/-- GET /admin/products of `server.js` (lines 569-585): reads the catalog
and returns it verbatim with status 200. -/
def getAdminProducts (fs : FileState) : Nat × Catalog :=
  (200, readProducts fs)

/-- One entry of the `items` array sent to POST /create_preference. -/
structure PrefItem where
  id : Nat
  title : String
  unit_price : ℚ
  quantity : Nat
deriving DecidableEq, Repr

/-- Outcome of the create-preference route: HTTP status and whether the
external MercadoPago `Preference.create` call was invoked. -/
structure PrefResult where
  status : Nat
  paymentsCalled : Bool
deriving DecidableEq, Repr

/-- The token guard of `server.js` lines 912-920: the route refuses to run
unless `MERCADOPAGO_ACCESS_TOKEN` is set and different from the
`TEST-TOKEN` fallback. -/
def mpConfigured (cfg : Config) : Bool :=
  match cfg.mpToken with
  | none => false
  | some t => t != ("TEST-TOKEN")

/-- The per-item validation loop of `server.js` lines 933-957: each item
must exist in the catalog and its declared unit price must match the
catalog price within an absolute tolerance of 0.01; the first failure
aborts with 400. -/
def validateItems (cat : Catalog) : List PrefItem → Bool
  | [] => true
  | it :: rest =>
    match List.lookup it.id cat with
    | none => false
    | some prod =>
      if (1 : ℚ) / 100 < abs (prod.price - it.unit_price) then false
      else validateItems cat rest

/-- POST /create_preference of `server.js` (lines 907-1018): token guard
(500), empty-items guard (400), the per-item existence/price loop (400),
the back-URL sanity check (500), and only then the external
`Preference.create` call, whose own failure surfaces as 500.
`server-vercel.js` lines 534-597 and `part_002` lines 444-509 are
identical up to the URL check.  `baseUrlOk` abstracts the
environment-derived `baseUrl.startsWith` check and `mpOk` the outcome of
the external call. -/
def createPreference (cfg : Config) (cat : Catalog) (items : List PrefItem)
    (baseUrlOk mpOk : Bool) : PrefResult :=
  if mpConfigured cfg = false then ⟨500, false⟩
  else if items.isEmpty then ⟨400, false⟩
  else if validateItems cat items = false then ⟨400, false⟩
  else if baseUrlOk = false then ⟨500, false⟩
  else if mpOk then ⟨200, true⟩
  else ⟨500, true⟩

/-- POST /create_preference of `api/index.js` (lines 74-98): no token
guard, no item or price validation — the request body is forwarded
directly to the external `Preference.create` call (500 only if that call
itself fails).  The catalog is never consulted. -/
def createPreferenceLegacy (cat : Catalog) (items : List PrefItem)
    (mpOk : Bool) : PrefResult :=
  if mpOk then ⟨200, true⟩
  else ⟨500, true⟩

/-- Buyer contact block of the order payload sent to the notification
endpoints. -/
structure Buyer where
  name : String
  email : String
  phone : String
  address : String
  city : String
  zip : String
deriving DecidableEq, Repr

/-- One cart line of the order payload. -/
structure CartItem where
  name : String
  quantity : Nat
  price : ℚ
deriving DecidableEq, Repr

/-- The ephemeral order payload (`buyerData`, `cartItems`, `total`). -/
structure OrderData where
  buyer : Buyer
  cartItems : List CartItem
  total : ℚ
deriving DecidableEq, Repr

/-- Decimal digits of the fraction `num / den` (with `num < den`), emitted
until the expansion terminates or the fuel runs out; used to render JS
numbers, whose decimal literals have terminating expansions. -/
def decimalFrac : Nat → Nat → Nat → String
  | 0, _, _ => ""
  | _ + 1, 0, _ => ""
  | fuel + 1, num, den =>
    let num10 := num * 10
    toString (num10 / den) ++ decimalFrac fuel (num10 % den) den

/-- Rendering of a JS number in a template literal (`` `$\x7bitem.price\x7d` ``):
sign, integer part, and the fractional digits when the value is not an
integer.  Exact for every value with a terminating decimal expansion of at
most 20 digits, which covers all JSON price literals. -/
def jsNumToString (q : ℚ) : String :=
  let sign := if q < 0 then ("-") else ("")
  let n := q.num.natAbs
  let d := q.den
  sign ++ toString (n / d) ++
    (if n % d = 0 then ("") else ("." ) ++ decimalFrac 20 (n % d) d)

/-- `Number.prototype.toFixed(2)` as used for the cart subtotals: round to
hundredths and print with exactly two decimals. -/
def toFixed2 (q : ℚ) : String :=
  let cents : Int := round (q * 100)
  let sign := if cents < 0 then ("-") else ("")
  let c := cents.natAbs
  sign ++ toString (c / 100) ++ ("." ) ++
    (if c % 100 < 10 then ("0") else ("")) ++ toString (c % 100)

/-- One cart line of the WhatsApp message (`server.js` lines 683-688). -/
def whatsappItemLine (idx : Nat) (it : CartItem) : String :=
  toString (idx + 1) ++ (". ") ++ it.name ++ ("\n") ++
  ("   • Cantidad: ") ++ toString it.quantity ++ ("\n") ++
  ("   • Precio unitario: $") ++ jsNumToString it.price ++ ("\n") ++
  ("   • Subtotal: $") ++ toFixed2 (it.price * (it.quantity : ℚ)) ++ ("\n\n")

/-- The WhatsApp message template of `server.js` lines 673-692 (also used
verbatim by `server-vercel.js` and `part_002`).  `dateStr` stands for
`new Date().toLocaleString` at handling time. -/
def whatsappMessage (order : OrderData) (dateStr : String) : String :=
  ("🛒 *NUEVA COMPRA - GANODERMA HUB*\n\n") ++
  ("👤 *DATOS DEL CLIENTE:*\n") ++
  ("• Nombre: ") ++ order.buyer.name ++ ("\n") ++
  ("• Email: ") ++ order.buyer.email ++ ("\n") ++
  ("• Teléfono: ") ++ order.buyer.phone ++ ("\n") ++
  ("• Dirección: ") ++ order.buyer.address ++ ("\n") ++
  ("• Ciudad: ") ++ order.buyer.city ++ ("\n") ++
  ("• Código Postal: ") ++ order.buyer.zip ++ ("\n\n") ++
  ("📦 *PRODUCTOS COMPRADOS:*\n") ++
  String.join (order.cartItems.enum.map (fun p => whatsappItemLine p.1 p.2)) ++
  ("💰 *TOTAL: $") ++ jsNumToString order.total ++ ("*\n\n") ++
  ("⏰ Fecha: ") ++ dateStr ++ ("\n") ++
  ("🌐 Pedido realizado desde: Ganoderma Hub")

/-- The WhatsApp message template of `api/index.js` lines 105-124, which
brands the store as Shiitake Hub instead. -/
def whatsappMessageLegacy (order : OrderData) (dateStr : String) : String :=
  ("🛒 *NUEVA COMPRA - SHIITAKE HUB*\n\n") ++
  ("👤 *DATOS DEL CLIENTE:*\n") ++
  ("• Nombre: ") ++ order.buyer.name ++ ("\n") ++
  ("• Email: ") ++ order.buyer.email ++ ("\n") ++
  ("• Teléfono: ") ++ order.buyer.phone ++ ("\n") ++
  ("• Dirección: ") ++ order.buyer.address ++ ("\n") ++
  ("• Ciudad: ") ++ order.buyer.city ++ ("\n") ++
  ("• Código Postal: ") ++ order.buyer.zip ++ ("\n\n") ++
  ("📦 *PRODUCTOS COMPRADOS:*\n") ++
  String.join (order.cartItems.enum.map (fun p => whatsappItemLine p.1 p.2)) ++
  ("💰 *TOTAL: $") ++ jsNumToString order.total ++ ("*\n\n") ++
  ("⏰ Fecha: ") ++ dateStr ++ ("\n") ++
  ("🌐 Pedido realizado desde: Shiitake Hub")

/-- Upper-case hexadecimal digit, for percent-encoding. -/
def hexChar (n : Nat) : Char :=
  if n < 10 then Char.ofNat (48 + n) else Char.ofNat (55 + n)

/-- Bytes `encodeURIComponent` leaves unescaped: ASCII alphanumerics and
`- _ . ! ~ * ' ( )`. -/
def uriUnreserved (b : UInt8) : Bool :=
  let n := b.toNat
  (48 ≤ n && n ≤ 57) || (65 ≤ n && n ≤ 90) || (97 ≤ n && n ≤ 122) ||
    [45, 95, 46, 33, 126, 42, 39, 40, 41].contains n

/-- Percent-encoding of one UTF-8 byte. -/
def encodeByte (b : UInt8) : List Char :=
  if uriUnreserved b then [Char.ofNat b.toNat]
  else [Char.ofNat 37, hexChar (b.toNat / 16), hexChar (b.toNat % 16)]

/-- JS `encodeURIComponent`: percent-encode every UTF-8 byte outside the
unreserved set. -/
def encodeURIComponent (s : String) : String :=
  String.mk (s.toUTF8.toList.flatMap encodeByte)

/-- The `wa.me` deep link built at `server.js` lines 695-697. -/
def whatsappLink (phoneNumber : String) (message : String) : String :=
  ("https://wa.me/") ++ phoneNumber ++ ("?text=") ++
    encodeURIComponent message

/-- The destination-number format check of `server.js` line 655, the regex
`^54` followed by exactly ten digits. -/
def isValidWhatsappNumber (n : String) : Bool :=
  decide (n.length = 12) && (n.take 2 == ("54")) && n.data.all Char.isDigit

/-- Outcome of the WhatsApp-notification route: HTTP status, the `wa.me`
URL when one is returned, and whether any external call was made (the
route only formats strings, so never). -/
structure WhatsResult where
  status : Nat
  whatsappUrl : Option String
  callsOut : Bool
deriving DecidableEq, Repr

/-- POST /send-whatsapp-notification of `server.js` (lines 644-718): 500
when `WHATSAPP_NUMBER` is unset, 500 when it fails the format regex,
otherwise the `wa.me` link assembled by pure string formatting of the
order data — no external call in any branch. -/
def sendWhatsapp (cfg : Config) (order : OrderData) (dateStr : String) :
    WhatsResult :=
  match cfg.whatsappNumber with
  | none => ⟨500, none, false⟩
  | some n =>
    if (isValidWhatsappNumber n) = false then ⟨500, none, false⟩
    else ⟨200, some (whatsappLink n (whatsappMessage order dateStr)), false⟩

/-- POST /send-whatsapp-notification of `server-vercel.js` (lines 387-432)
and `part_002` (lines 297-342): 500 when `WHATSAPP_NUMBER` is unset, but
no format validation — any configured string is used in the link. -/
def sendWhatsappVercel (cfg : Config) (order : OrderData) (dateStr : String) :
    WhatsResult :=
  match cfg.whatsappNumber with
  | none => ⟨500, none, false⟩
  | some n => ⟨200, some (whatsappLink n (whatsappMessage order dateStr)), false⟩

/-- POST /send-whatsapp-notification of `api/index.js` (lines 101-140): an
unset `WHATSAPP_NUMBER` falls back to the hard-coded default
`5491234567890`, so the route always answers 200 with a link. -/
def sendWhatsappLegacy (cfg : Config) (order : OrderData) (dateStr : String) :
    WhatsResult :=
  let phoneNumber := cfg.whatsappNumber.getD ("5491234567890")
  ⟨200, some (whatsappLink phoneNumber (whatsappMessageLegacy order dateStr)),
    false⟩

/-- A fully configured deployment, for concrete evaluations. -/
def cfg0 : Config :=
  ⟨("admin"), ("secret123"), some ("APP-USR-TOKEN"), some ("541112345678")⟩

/-- A deployment with `WHATSAPP_NUMBER` unset. -/
def cfgNoWhatsapp : Config :=
  ⟨("admin"), ("secret123"), some ("APP-USR-TOKEN"), none⟩

/-- A well-formed uploaded JPEG. -/
def jpegFile : UploadedFile := ⟨("reishi.jpg"), ("image/jpeg"), 2048⟩

/-- A valid create-product submission with correct credentials. -/
def createReq0 : CreateReq :=
  ⟨("Reishi"), 5, ("100g"), ("cafe"), ("admin"), ("secret123"), some jpegFile⟩

/-- An uploaded PDF, outside the MIME allow-list. -/
def pdfFile : UploadedFile := ⟨("doc.pdf"), ("application/pdf"), 2048⟩

/-- A create-product submission whose file is a PDF. -/
def pdfReq : CreateReq :=
  ⟨("Reishi"), 5, ("100g"), ("cafe"), ("admin"), ("secret123"), some pdfFile⟩

/-- The catalog entry of the one-product test catalog. -/
def catalogProduct : Product :=
  ⟨("Reishi"), 5, ("100g"), ("cafe"), ("img/reishi.jpg")⟩

/-- A one-product catalog under id 1, price 5. -/
def catalog1 : Catalog := [(1, catalogProduct)]

/-- A payment item for catalog id 1 declaring a tampered unit price of 999
against the catalog price of 5. -/
def mismatchItem : PrefItem := ⟨1, ("Reishi"), 999, 1⟩

/-- A concrete order payload. -/
def order0 : OrderData :=
  ⟨⟨("Ana Perez"), ("ana@mail.com"), ("1155554444"), ("Calle Falsa 123"),
    ("Rosario"), ("2000")⟩, [⟨("Reishi"), 2, 5⟩], 10⟩

/-- Step 1 of the id-reuse trace: create into an empty catalog. -/
def trace1 : CreateResult := createProduct cfg0 [] createReq0 true

/-- Step 2: create again, receiving id 2. -/
def trace2 : CreateResult := createProduct cfg0 trace1.catalog createReq0 true

/-- Step 3: delete id 2. -/
def trace3 : DeleteResult :=
  deleteProduct cfg0 trace2.catalog 2 ("admin") ("secret123") true true

/-- Step 4: create once more; the handler hands out id 2 a second time. -/
def trace4 : CreateResult := createProduct cfg0 trace3.catalog createReq0 true

theorem maxKey_cons (a : Nat × Product) (t : Catalog) :
    maxKey (a :: t) = max a.1 (maxKey t) := rfl

theorem le_maxKey_of_mem {cat : Catalog} {k : Nat} {p : Product}
    (h : (k, p) ∈ cat) : k ≤ maxKey cat := by
  induction cat with
  | nil => cases h
  | cons a t ih =>
    rcases List.mem_cons.mp h with h1 | h1
    · rw [maxKey_cons, ← h1]
      exact le_max_left _ _
    · rw [maxKey_cons]
      exact le_trans (ih h1) (le_max_right _ _)

theorem lookup_eq_none_of_maxKey_lt {cat : Catalog} {k : Nat}
    (h : maxKey cat < k) : List.lookup k cat = none := by
  induction cat with
  | nil => rfl
  | cons a t ih =>
    rw [maxKey_cons] at h
    have h1 : a.1 < k := lt_of_le_of_lt (le_max_left _ _) h
    have h2 : maxKey t < k := lt_of_le_of_lt (le_max_right _ _) h
    cases a with
    | mk a1 q =>
      have hne : (k == a1) = false := beq_eq_false_iff_ne.mpr (Nat.ne_of_gt h1)
      simp [List.lookup, hne, ih h2]

theorem lookup_append (k : Nat) (l1 l2 : Catalog) :
    List.lookup k (l1 ++ l2) =
      (match List.lookup k l1 with
       | some v => some v
       | none => List.lookup k l2) := by
  induction l1 with
  | nil => simp [List.lookup]
  | cons a t ih =>
    cases a with
    | mk a1 q =>
      by_cases h : k = a1
      · subst h
        simp [List.lookup]
      · have hne : (k == a1) = false := beq_eq_false_iff_ne.mpr h
        simp [List.lookup, hne, ih]

/-- Claim C7 (confirmed): `readProducts` is total toward its caller — for
every file-system state, including a missing catalog file and contents that
fail to parse, it returns a catalog value (the empty catalog; in the Vercel
variant a single placeholder product on a missing file) and never lets an
exception escape: the result is `Except.ok` in every case. -/
theorem read_catalog_total :
    (∀ fs, ∃ c, readProductsServer fs = Except.ok c) ∧
    readProductsServer FileState.missing = Except.ok [] ∧
    readProductsServer FileState.corrupt = Except.ok [] ∧
    (∀ cat, readProductsServer (FileState.stored cat) = Except.ok cat) ∧
    (∀ fs, ∃ c, readProductsVercel fs = Except.ok c) ∧
    readProductsVercel FileState.missing = Except.ok [(1, exampleProduct)] ∧
    readProductsVercel FileState.corrupt = Except.ok [] ∧
    (∀ cat, readProductsVercel (FileState.stored cat) = Except.ok cat) := by
  refine ⟨fun fs => ?_, rfl, rfl, fun cat => rfl, fun fs => ?_, rfl, rfl,
    fun cat => rfl⟩
  · cases fs <;> exact ⟨_, rfl⟩
  · cases fs <;> exact ⟨_, rfl⟩

/-- Claim C10 (confirmed): GET /api/products and GET /admin/products compute
the same function of the stored catalog — for every file state both return
status 200 with the unfiltered, untransformed catalog `readProducts`
produced. -/
theorem public_and_admin_products_agree :
    ∀ fs, getApiProducts fs = getAdminProducts fs ∧
      (getApiProducts fs).2 = readProducts fs ∧
      (getAdminProducts fs).2 = readProducts fs :=
  fun _ => ⟨rfl, rfl, rfl⟩

/-- Claim C2 (confirmed): a valid product submission (correct credentials,
file present with allowed MIME type and size within the 5 MB bound, write
succeeding) is answered 200, the new id is `maxKey cat + 1` — i.e.
`max(existing ids, 0) + 1` — and the persisted catalog is exactly the old
one plus the single new record under that id, every other key unchanged. -/
theorem create_product_assigns_next_id :
    ∀ (cfg : Config) (cat : Catalog) (req : CreateReq) (f : UploadedFile),
      req.file = some f →
      allowedImageTypes.contains f.mimetype = true →
      f.size ≤ maxImageBytes →
      req.username = cfg.adminUsername →
      req.password = cfg.adminPassword →
      (createProduct cfg cat req true).status = 200 ∧
      (createProduct cfg cat req true).assignedId = some (maxKey cat + 1) ∧
      (createProduct cfg cat req true).catalogWritten = true ∧
      (createProduct cfg cat req true).catalog =
        cat ++ [(maxKey cat + 1,
          ⟨jsTrim req.name, req.price, jsTrim req.size, req.description,
            ("img/") ++ f.filename⟩)] ∧
      (∀ k, List.lookup k (createProduct cfg cat req true).catalog =
        if k = maxKey cat + 1 then
          some ⟨jsTrim req.name, req.price, jsTrim req.size, req.description,
            ("img/") ++ f.filename⟩
        else List.lookup k cat) := by
  intro cfg cat req f hf hmime hsize hu hp
  have hns : ¬ (maxImageBytes < f.size) := not_lt.mpr hsize
  have hmem : f.mimetype ∈ allowedImageTypes := by simpa using hmime
  have hcp : createProduct cfg cat req true =
      ⟨200, cat ++ [(maxKey cat + 1,
        ⟨jsTrim req.name, req.price, jsTrim req.size, req.description,
          ("img/") ++ f.filename⟩)], some (maxKey cat + 1), true, true⟩ := by
    simp [createProduct, hf, hmem, hns, hu, hp]
  refine ⟨by rw [hcp], by rw [hcp], by rw [hcp], by rw [hcp], ?_⟩
  intro k
  rw [hcp]
  by_cases hk : k = maxKey cat + 1
  · subst hk
    rw [if_pos rfl, lookup_append,
      lookup_eq_none_of_maxKey_lt (Nat.lt_succ_self _)]
    simp [List.lookup]
  · rw [if_neg hk, lookup_append]
    have hne : (k == maxKey cat + 1) = false := beq_eq_false_iff_ne.mpr hk
    cases h : List.lookup k cat <;> simp [List.lookup, hne]

/-- Claim C2 witness: on the one-product catalog the valid submission is
accepted with id 2 and the new record is found under id 2 afterwards. -/
theorem create_product_assigns_next_id_witness :
    (createProduct cfg0 catalog1 createReq0 true).status = 200 ∧
    (createProduct cfg0 catalog1 createReq0 true).assignedId =
      some (maxKey catalog1 + 1) ∧
    List.lookup (maxKey catalog1 + 1)
      (createProduct cfg0 catalog1 createReq0 true).catalog =
      some ⟨("Reishi"), 5, ("100g"), ("cafe"), ("img/reishi.jpg")⟩ := by
  have h := create_product_assigns_next_id cfg0 catalog1 createReq0 jpegFile
    rfl (by decide) (by decide) rfl rfl
  refine ⟨h.1, h.2.1, ?_⟩
  have h5 := h.2.2.2.2 (maxKey catalog1 + 1)
  rw [if_pos rfl] at h5
  exact h5.trans (by decide)

/-- Claim C6 (corrected, supporting theorem): every id handed out by
`createProduct` is `maxKey cat + 1`, strictly greater than every id present
in the catalog at that moment — so an id can only be reassigned after the
catalog maximum has dropped below it, which deletion of the top id makes
possible. -/
theorem assigned_id_above_catalog :
    ∀ (cfg : Config) (cat : Catalog) (req : CreateReq) (f : UploadedFile),
      req.file = some f →
      allowedImageTypes.contains f.mimetype = true →
      f.size ≤ maxImageBytes →
      req.username = cfg.adminUsername →
      req.password = cfg.adminPassword →
      (createProduct cfg cat req true).assignedId = some (maxKey cat + 1) ∧
      (∀ k p, (k, p) ∈ cat → k < maxKey cat + 1) := by
  intro cfg cat req f hf hmime hsize hu hp
  have hns : ¬ (maxImageBytes < f.size) := not_lt.mpr hsize
  have hmem : f.mimetype ∈ allowedImageTypes := by simpa using hmime
  constructor
  · simp [createProduct, hf, hmem, hns, hu, hp]
  · intro k p hmem
    exact Nat.lt_succ_of_le (le_maxKey_of_mem hmem)

/-- Claim C6 witness: creating over the one-product catalog assigns the id
`maxKey catalog1 + 1`, above the existing id 1. -/
theorem assigned_id_above_catalog_witness :
    (createProduct cfg0 catalog1 createReq0 true).assignedId =
      some (maxKey catalog1 + 1) ∧
    1 < maxKey catalog1 + 1 := by
  have h := assigned_id_above_catalog cfg0 catalog1 createReq0 jpegFile
    rfl (by decide) (by decide) rfl rfl
  exact ⟨h.1, h.2 1 catalogProduct (by decide)⟩

/-- Claim C6 counterexample: ids are reused after deletion — starting from
the empty catalog, the second create receives id 2, that product is then
deleted, and the very next create receives id 2 again. -/
theorem product_id_reuse :
    trace2.assignedId = some 2 ∧
    trace3.status = 200 ∧
    List.lookup 2 trace3.catalog = none ∧
    trace4.assignedId = some 2 := by decide

theorem validateItems_eq_false_of_mismatch
    {cat : Catalog} {items : List PrefItem} {it : PrefItem} {prod : Product}
    (hmem : it ∈ items) (hlk : List.lookup it.id cat = some prod)
    (hgt : (1 : ℚ) / 100 < abs (prod.price - it.unit_price)) :
    validateItems cat items = false := by
  induction items with
  | nil => cases hmem
  | cons a t ih =>
    rcases List.mem_cons.mp hmem with h | h
    · subst h
      simp only [validateItems]
      rw [hlk]
      show (if (1 : ℚ) / 100 < abs (prod.price - it.unit_price) then false
            else validateItems cat t) = false
      rw [if_pos hgt]
    · simp only [validateItems]
      cases hla : List.lookup a.id cat with
      | none => rfl
      | some p =>
        show (if (1 : ℚ) / 100 < abs (p.price - a.unit_price) then false
              else validateItems cat t) = false
        by_cases hp : (1 : ℚ) / 100 < abs (p.price - a.unit_price)
        · rw [if_pos hp]
        · rw [if_neg hp]
          exact ih h

/-- Claim C1 (corrected, supporting theorem): in the validating variants
(`server.js`, `server-vercel.js`, `part_002`), when the payments token is
configured, any request containing an item whose declared unit price
differs from its catalog price by more than 0.01 is answered 400 and the
external `Preference.create` call is never invoked. -/
theorem create_preference_price_mismatch :
    ∀ (cfg : Config) (cat : Catalog) (items : List PrefItem)
      (baseUrlOk mpOk : Bool),
      mpConfigured cfg = true →
      (∃ it ∈ items, ∃ prod, List.lookup it.id cat = some prod ∧
        (1 : ℚ) / 100 < abs (prod.price - it.unit_price)) →
      createPreference cfg cat items baseUrlOk mpOk = ⟨400, false⟩ := by
  intro cfg cat items baseUrlOk mpOk hcfg hex
  obtain ⟨it, hmem, prod, hlk, hgt⟩ := hex
  have hvi := validateItems_eq_false_of_mismatch hmem hlk hgt
  have hne : items.isEmpty = false := by
    cases items with
    | nil => cases hmem
    | cons a t => rfl
  simp [createPreference, hcfg, hne, hvi]

/-- Claim C1 witness: on the one-product catalog the tampered item (catalog
price 5, declared 999) is rejected with 400 and the payments client is not
called. -/
theorem create_preference_price_mismatch_witness :
    createPreference cfg0 catalog1 [mismatchItem] true true = ⟨400, false⟩ :=
  create_preference_price_mismatch cfg0 catalog1 [mismatchItem] true true
    (by decide)
    ⟨mismatchItem, List.mem_singleton.mpr rfl, catalogProduct, rfl,
      by norm_num [catalogProduct, mismatchItem]⟩

/-- Claim C1 counterexample: the `api/index.js` variant of the route does
not validate prices — the same tampered item (in the catalog at price 5,
declared 999) is forwarded to the external `Preference.create` call and
the response is not 400. -/
theorem create_preference_legacy_no_validation :
    List.lookup mismatchItem.id catalog1 = some catalogProduct ∧
    (1 : ℚ) / 100 < abs (catalogProduct.price - mismatchItem.unit_price) ∧
    (createPreferenceLegacy catalog1 [mismatchItem] true).paymentsCalled = true ∧
    (createPreferenceLegacy catalog1 [mismatchItem] true).status ≠ 400 := by
  refine ⟨rfl, by norm_num [catalogProduct, mismatchItem], rfl, by decide⟩

/-- Claim C3 (confirmed): a delete request with correct credentials for an
id absent from the catalog is answered 404 and `writeProducts` is never
invoked, leaving the catalog file untouched — in the plain `part_002`
handler unconditionally, and in the `server.js` handler whenever the
request passes its express-validator layer (integer id ≥ 1, username
length 3-50 after trimming, password length 6-100). -/
theorem delete_missing_product_404 :
    ∀ (cfg : Config) (cat : Catalog) (id : Nat) (u p : String)
      (imgEx writeOk : Bool),
      jsTrim u = u →
      u = cfg.adminUsername →
      p = cfg.adminPassword →
      List.lookup id cat = none →
      (deleteProductBasic cfg cat id u p imgEx writeOk =
        ⟨404, cat, false, false⟩) ∧
      (1 ≤ id → 3 ≤ u.length ∧ u.length ≤ 50 → 6 ≤ p.length ∧ p.length ≤ 100 →
        deleteProduct cfg cat id u p imgEx writeOk =
          ⟨404, cat, false, false⟩) := by
  intro cfg cat id u p imgEx writeOk htrim hu hp hlk
  subst hu
  subst hp
  constructor
  · simp [deleteProductBasic, hlk]
  · intro h1 h2 h3
    have hid : ¬ (id < 1) := not_lt.mpr h1
    unfold deleteProduct
    simp only [htrim]
    rw [if_neg hid, if_neg (not_not_intro h2), if_neg (not_not_intro h3),
      if_neg (by simp), hlk]

/-- Claim C3 witness: deleting the absent id 7 from the one-product catalog
answers 404 without writing. -/
theorem delete_missing_product_404_witness :
    deleteProduct cfg0 catalog1 7 ("admin") ("secret123") true true =
      ⟨404, catalog1, false, false⟩ ∧
    deleteProductBasic cfg0 catalog1 7 ("admin") ("secret123") true true =
      ⟨404, catalog1, false, false⟩ := by
  have h := delete_missing_product_404 cfg0 catalog1 7 ("admin") ("secret123")
    true true (by decide) rfl rfl (by decide)
  exact ⟨h.2 (by decide) (by decide) (by decide), h.1⟩

/-- Claim C4 (corrected, supporting theorem): in the
`authenticateAdmin`-guarded login route of `server.js`, a submission that
passes the format validations is answered `{success:true}` when both
fields match the configured credentials and 401 when either differs; the
login route never writes the catalog, and neither does the unconditional
`part_001` route. -/
theorem admin_login_guarded :
    ∀ (cfg : Config) (u p : String),
      ((adminLogin cfg u p).catalogWritten = false) ∧
      ((adminLoginDev u p).catalogWritten = false) ∧
      (usernameFormatOk (jsTrim u) = true → passwordFormatOk p = true →
        ((jsTrim u = cfg.adminUsername ∧ p = cfg.adminPassword) →
          adminLogin cfg u p = ⟨200, true, false⟩) ∧
        (¬ (jsTrim u = cfg.adminUsername ∧ p = cfg.adminPassword) →
          adminLogin cfg u p = ⟨401, false, false⟩)) := by
  intro cfg u p
  refine ⟨?_, rfl, ?_⟩
  · unfold adminLogin
    split
    · rfl
    · split
      · rfl
      · rfl
  · intro hfu hfp
    have hc : ¬ ((usernameFormatOk (jsTrim u) && passwordFormatOk p) = false) := by
      simp [hfu, hfp]
    constructor
    · intro h2
      unfold adminLogin
      rw [if_neg hc, if_pos h2]
    · intro h2
      unfold adminLogin
      rw [if_neg hc, if_neg h2]

/-- Claim C4 witness: with the configured credentials the guarded route
answers success, and with a wrong password it answers 401. -/
theorem admin_login_guarded_witness :
    adminLogin cfg0 ("admin") ("secret123") = ⟨200, true, false⟩ ∧
    adminLogin cfg0 ("admin") ("wrongpass") = ⟨401, false, false⟩ := by
  refine ⟨((admin_login_guarded cfg0 ("admin") ("secret123")).2.2
      (by decide) (by decide)).1 (by decide),
    ((admin_login_guarded cfg0 ("admin") ("wrongpass")).2.2
      (by decide) (by decide)).2 (by decide)⟩

/-- Claim C4 counterexample: the `part_001` login route answers
`{success:true}` to every request — submitted credentials that differ from
the configured ones (here cfg0's) still do not produce 401. -/
theorem admin_login_dev_always_succeeds :
    cfg0.adminUsername ≠ ("intruder") ∧
    cfg0.adminPassword ≠ ("letmein77") ∧
    (adminLoginDev ("intruder") ("letmein77")).status ≠ 401 ∧
    (adminLoginDev ("intruder") ("letmein77")).success = true := by decide

/-- Claim C5 (corrected, supporting theorem): an upload whose MIME type is
outside the allow-list is stopped by the multer fileFilter before the file
is stored; the resulting error is handled by the generic error middleware
with status 500 (the 400 branches of `validateFile` and of the handler are
unreachable for it), no uploaded file remains on disk and the catalog is
untouched. -/
theorem bad_mime_rejected_500 :
    ∀ (cfg : Config) (cat : Catalog) (req : CreateReq) (f : UploadedFile)
      (writeOk : Bool),
      req.file = some f →
      allowedImageTypes.contains f.mimetype = false →
      (createProduct cfg cat req writeOk).status = 500 ∧
      (createProduct cfg cat req writeOk).uploadedFileOnDisk = false ∧
      (createProduct cfg cat req writeOk).catalogWritten = false ∧
      (createProduct cfg cat req writeOk).catalog = cat := by
  intro cfg cat req f w hf hm
  have hnm : f.mimetype ∉ allowedImageTypes := by simpa using hm
  simp [createProduct, hf, hnm]

/-- Claim C5 witness: the PDF upload over the empty catalog is answered 500
with no file left on disk and nothing written. -/
theorem bad_mime_rejected_500_witness :
    (createProduct cfg0 [] pdfReq true).status = 500 ∧
    (createProduct cfg0 [] pdfReq true).uploadedFileOnDisk = false ∧
    (createProduct cfg0 [] pdfReq true).catalogWritten = false ∧
    (createProduct cfg0 [] pdfReq true).catalog = [] :=
  bad_mime_rejected_500 cfg0 [] pdfReq pdfFile true rfl (by decide)

/-- Claim C5 counterexample: the PDF upload is answered 500, not the 400
the claim states (no file remains on disk, as claimed). -/
theorem pdf_upload_responds_500 :
    (createProduct cfg0 catalog1 pdfReq true).status = 500 ∧
    (createProduct cfg0 catalog1 pdfReq true).status ≠ 400 ∧
    (createProduct cfg0 catalog1 pdfReq true).uploadedFileOnDisk = false := by
  decide

/-- Claim C8 (corrected, supporting theorem): in `server.js`, an unset
destination number and a configured number failing the `^54` + ten digits
format are both answered 500 with no `wa.me` URL; a well-formed number
yields status 200 with the deep link built by pure string formatting of
the order data, and the route makes no external call in any branch. -/
theorem whatsapp_number_guard :
    ∀ (cfg : Config) (order : OrderData) (dateStr : String),
      (cfg.whatsappNumber = none →
        sendWhatsapp cfg order dateStr = ⟨500, none, false⟩) ∧
      (∀ n, cfg.whatsappNumber = some n → isValidWhatsappNumber n = false →
        sendWhatsapp cfg order dateStr = ⟨500, none, false⟩) ∧
      (∀ n, cfg.whatsappNumber = some n → isValidWhatsappNumber n = true →
        sendWhatsapp cfg order dateStr =
          ⟨200, some (whatsappLink n (whatsappMessage order dateStr)), false⟩) := by
  intro cfg order d
  refine ⟨fun h => by simp [sendWhatsapp, h],
    fun n h hv => by simp [sendWhatsapp, h, hv],
    fun n h hv => by simp [sendWhatsapp, h, hv]⟩

/-- Claim C8 witness: with the well-formed configured number the route
answers 200 with the formatted `wa.me` link. -/
theorem whatsapp_number_guard_witness :
    sendWhatsapp cfg0 order0 ("1/1/2025") =
      ⟨200, some (whatsappLink ("541112345678")
        (whatsappMessage order0 ("1/1/2025"))), false⟩ :=
  (whatsapp_number_guard cfg0 order0 ("1/1/2025")).2.2 ("541112345678") rfl
    (by decide)

/-- Claim C8 counterexample: the `api/index.js` variant substitutes a
hard-coded default when the destination number is unset — the response is
200 with a `wa.me` URL, not the claimed 500 with no URL. -/
theorem whatsapp_legacy_default_number :
    cfgNoWhatsapp.whatsappNumber = none ∧
    (sendWhatsappLegacy cfgNoWhatsapp order0 ("1/1/2025")).status = 200 ∧
    (sendWhatsappLegacy cfgNoWhatsapp order0 ("1/1/2025")).status ≠ 500 ∧
    (sendWhatsappLegacy cfgNoWhatsapp order0 ("1/1/2025")).whatsappUrl.isSome
      = true := by
  refine ⟨rfl, rfl, by decide, rfl⟩

/-- Claim C9 (corrected, supporting theorem): when persisting the catalog
fails, both mutating routes answer 500 and leave the catalog file as it
was, but the image-file state is partial — the uploaded image of a create
request is still on disk, and the existing image of a delete request has
already been unlinked. -/
theorem persist_failure_leaves_partial_files :
    ∀ (cfg : Config) (cat : Catalog) (req : CreateReq) (f : UploadedFile)
      (id : Nat) (u p : String),
      req.file = some f →
      allowedImageTypes.contains f.mimetype = true →
      f.size ≤ maxImageBytes →
      req.username = cfg.adminUsername →
      req.password = cfg.adminPassword →
      ((createProduct cfg cat req false).status = 500 ∧
       (createProduct cfg cat req false).catalog = cat ∧
       (createProduct cfg cat req false).catalogWritten = false ∧
       (createProduct cfg cat req false).uploadedFileOnDisk = true) ∧
      (jsTrim u = u → u = cfg.adminUsername → p = cfg.adminPassword →
        1 ≤ id → 3 ≤ u.length ∧ u.length ≤ 50 →
        6 ≤ p.length ∧ p.length ≤ 100 →
        (∃ prod, List.lookup id cat = some prod) →
        (deleteProduct cfg cat id u p true false).status = 500 ∧
        (deleteProduct cfg cat id u p true false).catalog = cat ∧
        (deleteProduct cfg cat id u p true false).catalogWritten = false ∧
        (deleteProduct cfg cat id u p true false).imageDeleted = true) := by
  intro cfg cat req f id u p hf hmime hsize hu hp
  have hns : ¬ (maxImageBytes < f.size) := not_lt.mpr hsize
  have hmem : f.mimetype ∈ allowedImageTypes := by simpa using hmime
  constructor
  · simp [createProduct, hf, hmem, hns, hu, hp]
  · intro htrim hu2 hp2 h1 h2 h3 hex
    obtain ⟨prod, hlk⟩ := hex
    have hid : ¬ (id < 1) := not_lt.mpr h1
    subst hu2
    subst hp2
    unfold deleteProduct
    simp only [htrim]
    rw [if_neg hid, if_neg (not_not_intro h2), if_neg (not_not_intro h3),
      if_neg (by simp), hlk]
    exact ⟨rfl, rfl, rfl, rfl⟩

/-- Claim C9 witness: with a failing write, the valid create leaves the
catalog unwritten and the valid delete of id 1 leaves the catalog as it
was. -/
theorem persist_failure_leaves_partial_files_witness :
    (createProduct cfg0 catalog1 createReq0 false).catalogWritten = false ∧
    (deleteProduct cfg0 catalog1 1 ("admin") ("secret123") true false).catalog
      = catalog1 := by
  have h := persist_failure_leaves_partial_files cfg0 catalog1 createReq0
    jpegFile 1 ("admin") ("secret123") rfl (by decide) (by decide) rfl rfl
  exact ⟨h.1.2.2.1,
    (h.2 (by decide) rfl rfl (by decide) (by decide) (by decide)
      ⟨catalogProduct, rfl⟩).2.1⟩

/-- Claim C9 counterexample: when the catalog write fails, the create
request answers 500 with the uploaded image still on disk, and the delete
request answers 500 with the existing image already deleted — partial
state the claim rules out. -/
theorem create_write_failure_file_remains :
    (createProduct cfg0 catalog1 createReq0 false).status = 500 ∧
    (createProduct cfg0 catalog1 createReq0 false).uploadedFileOnDisk = true ∧
    (deleteProduct cfg0 catalog1 1 ("admin") ("secret123") true false).status
      = 500 ∧
    (deleteProduct cfg0 catalog1 1 ("admin") ("secret123") true false).imageDeleted
      = true := by decide

end Shiitake
